import Mathlib

/-!
# Size-class tables of the pool allocator (`runtime/caml/sizeclasses.h`)

The header holds four constants and three constant arrays.  They are embedded
here as natural-number constants and as lists of naturals, entry for entry in
the order of the C initialisers.  Statements about an entry `a[i]` are written
with the lookup `a[i]?` and always establish that the entry exists.  The header
has no accessor and no bounds check: the C read itself is unchecked, and is
embedded separately as `sizeclass_wsize_at`.
-/

namespace Sizeclasses

/-! ## Constants -/

/-- Words per pool: `#define POOL_WSIZE 4096`. -/
def POOL_WSIZE : Nat := 4096

/-- Words taken by the pool header: `#define POOL_HEADER_WSIZE 7`. -/
def POOL_HEADER_WSIZE : Nat := 7

/-- Largest word size served by a size class: `#define SIZECLASS_MAX 128`. -/
def SIZECLASS_MAX : Nat := 128

/-- Number of size classes: `#define NUM_SIZECLASSES 33`. -/
def NUM_SIZECLASSES : Nat := 33

/-- Number of values of `sizeclass_t`, declared as `unsigned char` (8 bits). -/
def SIZECLASS_T_RANGE : Nat := 2 ^ 8

/-! ## Tables -/

/-- The largest size for each size class:
`static const unsigned int wsize_sizeclass[NUM_SIZECLASSES]`. -/
def wsize_sizeclass : List Nat :=
  [ 1, 2, 3, 4, 5, 6, 7, 8, 9, 10, 12, 14, 16, 17, 19, 22, 25, 28, 32, 33, 37,
    42, 47, 53, 59, 65, 73, 81, 89, 99, 108, 118, 128 ]

/-- The number of padding words at the beginning of a pool of each size class:
`static const unsigned char wastage_sizeclass[NUM_SIZECLASSES]`. -/
def wastage_sizeclass : List Nat :=
  [ 0, 1, 0, 1, 4, 3, 1, 1, 3, 9, 9, 1, 9, 9, 4, 19, 14, 1, 25, 30, 19, 15, 0,
    8, 18, 59, 1, 39, 84, 30, 93, 77, 121 ]

/-- Map from (positive) object sizes to size classes:
`static const sizeclass_t sizeclass_wsize[SIZECLASS_MAX + 1]`. -/
def sizeclass_wsize : List Nat :=
  [ 255, 0, 1, 2, 3, 4, 5, 6, 7, 8, 9, 10, 10, 11, 11, 12, 12, 13, 14, 14, 15,
    15, 15, 16, 16, 16, 17, 17, 17, 18, 18, 18, 18, 19, 20, 20, 20, 20, 21, 21,
    21, 21, 21, 22, 22, 22, 22, 22, 23, 23, 23, 23, 23, 23, 24, 24, 24, 24, 24,
    24, 25, 25, 25, 25, 25, 25, 26, 26, 26, 26, 26, 26, 26, 26, 27, 27, 27, 27,
    27, 27, 27, 27, 28, 28, 28, 28, 28, 28, 28, 28, 29, 29, 29, 29, 29, 29, 29,
    29, 29, 29, 30, 30, 30, 30, 30, 30, 30, 30, 30, 31, 31, 31, 31, 31, 31, 31,
    31, 31, 31, 32, 32, 32, 32, 32, 32, 32, 32, 32, 32 ]

/-! ## The unchecked array read -/

/-- Linear scan of the class-size array for the first entry that is at least
`w`, as the specification describes the construction of the reverse lookup.
This definition follows the specification; it is compared with the stored
table `sizeclass_wsize`. -/
def firstFitScan (w : Nat) : Option Nat :=
  wsize_sizeclass.findIdx? (fun s => decide (w ≤ s))

/-! ## The static assertion on the index type -/

/-- Modelled from the spec: `CHAR_BIT` is a macro of `<limits.h>`, which is
not part of the sources at hand; the specification fixes the index type as an
8-bit unsigned value. -/
def CHAR_BIT : Nat := 8

/-- Value of `sizeof(sizeclass_t)`: `sizeclass_t` is `unsigned char`, whose
size is 1 in C. -/
def sizeof_sizeclass_t : Nat := 1

/-- The condition of
`static_assert(NUM_SIZECLASSES < (1 << (CHAR_BIT * sizeof(sizeclass_t))), "")`. -/
def static_assert_condition : Bool :=
  decide (NUM_SIZECLASSES < 1 <<< (CHAR_BIT * sizeof_sizeclass_t))

/-- Storing a class index in a `sizeclass_t`: conversion to an unsigned type
reduces modulo the number of values of the type. -/
def to_sizeclass_t (c : Nat) : Nat :=
  c % 2 ^ (CHAR_BIT * sizeof_sizeclass_t)

/-! ## Vocabulary for the growth of the class sizes -/

/-- The three ways of rounding a rational to an integer that the description
of the generator leaves open. -/
inductive Rounding where
  | down
  | up
  | nearest
  deriving DecidableEq, Repr

/-- Whether the integer `z` is the rational `x` rounded under the rule `r`.
Rounding to nearest accepts either neighbour at a tie, so no tie-breaking
convention is assumed. -/
def roundsTo (r : Rounding) (x : ℚ) (z : ℤ) : Bool :=
  match r with
  | Rounding.down => decide (Int.floor x = z)
  | Rounding.up => decide (Int.ceil x = z)
  | Rounding.nearest => decide (|x - (z : ℚ)| ≤ 1 / 2)

/-- Whether class `i` of `wsize_sizeclass` is class `i - 1` scaled by the
factor `f` and rounded under the rule `r`.  This definition follows the
specification of the generator; it is compared with the stored table. -/
def growthStepMatches (f : ℚ) (r : Rounding) (i : Nat) : Bool :=
  match wsize_sizeclass[i - 1]?, wsize_sizeclass[i]? with
  | some a, some b => roundsTo r ((a : ℚ) * f) (b : ℤ)
  | _, _ => false

/-! ## Generic lookup lemmas -/

theorem lookup_eq_some_getD (l : List Nat) (i : Nat) (h : i < l.length) :
    l[i]? = some (l.getD i 0) := by
  simp [List.getD_eq_getElem?_getD, List.getElem?_eq_getElem h]

theorem wsize_sizeclass_length : wsize_sizeclass.length = 33 := by
  simp [wsize_sizeclass]

theorem wastage_sizeclass_length : wastage_sizeclass.length = 33 := by
  simp [wastage_sizeclass]

theorem sizeclass_wsize_length : sizeclass_wsize.length = 129 := by
  simp [sizeclass_wsize]

theorem wsize_lookup (i : Nat) (h : i < NUM_SIZECLASSES) :
    wsize_sizeclass[i]? = some (wsize_sizeclass.getD i 0) :=
  lookup_eq_some_getD _ _ (by rw [wsize_sizeclass_length]; exact h)

theorem wastage_lookup (i : Nat) (h : i < NUM_SIZECLASSES) :
    wastage_sizeclass[i]? = some (wastage_sizeclass.getD i 0) :=
  lookup_eq_some_getD _ _ (by rw [wastage_sizeclass_length]; exact h)

theorem sizeclass_lookup (n : Nat) (h : n ≤ SIZECLASS_MAX) :
    sizeclass_wsize[n]? = some (sizeclass_wsize.getD n 0) :=
  lookup_eq_some_getD _ _ (by rw [sizeclass_wsize_length]; exact Nat.lt_succ_of_le h)

/-! ## Table facts established by exhaustive evaluation -/

set_option maxRecDepth 100000 in
theorem coverage_table :
    ∀ n < 129, 1 ≤ n →
      sizeclass_wsize.getD n 0 < 33 ∧ sizeclass_wsize.getD n 0 ≠ 255 ∧
      n ≤ wsize_sizeclass.getD (sizeclass_wsize.getD n 0) 0 := by
  decide

set_option maxRecDepth 100000 in
theorem first_fit_table :
    ∀ n < 129, 1 ≤ n →
      (∀ i < sizeclass_wsize.getD n 0, wsize_sizeclass.getD i 0 < n) ∧
      firstFitScan n = some (sizeclass_wsize.getD n 0) := by
  decide

set_option maxRecDepth 100000 in
theorem increasing_table :
    ∀ j < 33, ∀ i < j, wsize_sizeclass.getD i 0 < wsize_sizeclass.getD j 0 := by
  decide

set_option maxRecDepth 100000 in
theorem tiling_table :
    ∀ c < 33,
      1 ≤ 4089 / wsize_sizeclass.getD c 0 ∧
      7 + wastage_sizeclass.getD c 0
          + 4089 / wsize_sizeclass.getD c 0 * wsize_sizeclass.getD c 0 = 4096 ∧
      wastage_sizeclass.getD c 0 < wsize_sizeclass.getD c 0 ∧
      wastage_sizeclass.getD c 0 = 4089 % wsize_sizeclass.getD c 0 := by
  decide

set_option maxRecDepth 100000 in
/-- Every stored entry fits its C element type, so the embedding as natural
numbers loses nothing: `unsigned char` for `wastage_sizeclass` and
`sizeclass_wsize`, `unsigned int` for `wsize_sizeclass`. -/
theorem entries_fit_element_types :
    (∀ s ∈ wsize_sizeclass, s < 2 ^ 32) ∧
      (∀ w ∈ wastage_sizeclass, w < SIZECLASS_T_RANGE) ∧
      (∀ c ∈ sizeclass_wsize, c < SIZECLASS_T_RANGE) := by
  decide

/-! ## Claims -/

/-- C1 (coverage): for every word size `n` with `1 ≤ n ≤ SIZECLASS_MAX` the
entry `sizeclass_wsize[n]` exists, is a valid class index (below
`NUM_SIZECLASSES`, hence not the sentinel 255), and the class it names is
large enough: `wsize_sizeclass[sizeclass_wsize[n]] ≥ n`. -/
theorem coverage (n : Nat) (h1 : 1 ≤ n) (h2 : n ≤ SIZECLASS_MAX) :
    ∃ c s, sizeclass_wsize[n]? = some c ∧ c < NUM_SIZECLASSES ∧ c ≠ 255 ∧
      wsize_sizeclass[c]? = some s ∧ n ≤ s := by
  have hn : n < 129 := Nat.lt_succ_of_le h2
  obtain ⟨hc, hs, hle⟩ := coverage_table n hn h1
  exact ⟨_, _, sizeclass_lookup n h2, hc, hs, wsize_lookup _ hc, hle⟩

theorem coverage_witness :
    1 ≤ 11 ∧ 11 ≤ SIZECLASS_MAX ∧ ∃ c s, sizeclass_wsize[11]? = some c ∧ c < NUM_SIZECLASSES ∧ c ≠ 255 ∧
      wsize_sizeclass[c]? = some s ∧ 11 ≤ s :=
  ⟨by decide, by decide, coverage 11 (by decide) (by decide)⟩

/-- C2 (minimality, first fit): for every word size `n` with
`1 ≤ n ≤ SIZECLASS_MAX`, every class index `i` below `sizeclass_wsize[n]` has
`wsize_sizeclass[i] < n`, and `sizeclass_wsize[n]` is exactly the index that a
linear scan of `wsize_sizeclass` for the first entry `≥ n` returns. -/
theorem first_fit (n : Nat) (h1 : 1 ≤ n) (h2 : n ≤ SIZECLASS_MAX) :
    ∃ c, sizeclass_wsize[n]? = some c ∧
      (∀ i, i < c → ∃ s, wsize_sizeclass[i]? = some s ∧ s < n) ∧
      firstFitScan n = some c := by
  have hn : n < 129 := Nat.lt_succ_of_le h2
  obtain ⟨hc, -, -⟩ := coverage_table n hn h1
  obtain ⟨hlt, hscan⟩ := first_fit_table n hn h1
  refine ⟨_, sizeclass_lookup n h2, ?_, hscan⟩
  intro i hi
  exact ⟨_, wsize_lookup i (Nat.lt_trans hi hc), hlt i hi⟩

theorem first_fit_witness :
    1 ≤ 20 ∧ 20 ≤ SIZECLASS_MAX ∧ ∃ c, sizeclass_wsize[20]? = some c ∧
      (∀ i, i < c → ∃ s, wsize_sizeclass[i]? = some s ∧ s < 20) ∧
      firstFitScan 20 = some c :=
  ⟨by decide, by decide, first_fit 20 (by decide) (by decide)⟩

/-- C3 (monotonicity): the class sizes are strictly increasing in the class
index: for all indices `i < j < NUM_SIZECLASSES`, both entries exist and
`wsize_sizeclass[i] < wsize_sizeclass[j]`. -/
theorem wsize_strictly_increasing (i j : Nat) (hij : i < j) (hj : j < NUM_SIZECLASSES) :
    ∃ a b, wsize_sizeclass[i]? = some a ∧ wsize_sizeclass[j]? = some b ∧ a < b :=
  ⟨_, _, wsize_lookup i (Nat.lt_trans hij hj), wsize_lookup j hj,
    increasing_table j hj i hij⟩

theorem wsize_strictly_increasing_witness :
    12 < 13 ∧ 13 < NUM_SIZECLASSES ∧ ∃ a b, wsize_sizeclass[12]? = some a ∧ wsize_sizeclass[13]? = some b ∧ a < b :=
  ⟨by decide, by decide, wsize_strictly_increasing 12 13 (by decide) (by decide)⟩

/-- C4 (pool tiling exactness): for every class index `c < NUM_SIZECLASSES`
there is an integer `k ≥ 1` with
`POOL_HEADER_WSIZE + wastage_sizeclass[c] + k * wsize_sizeclass[c] = POOL_WSIZE`,
and `wastage_sizeclass[c] < wsize_sizeclass[c]`. -/
theorem pool_tiling_exact (c : Nat) (hc : c < NUM_SIZECLASSES) :
    ∃ s w k, wsize_sizeclass[c]? = some s ∧ wastage_sizeclass[c]? = some w ∧
      1 ≤ k ∧ POOL_HEADER_WSIZE + w + k * s = POOL_WSIZE ∧ w < s := by
  obtain ⟨hk, hsum, hlt, -⟩ := tiling_table c hc
  exact ⟨_, _, _, wsize_lookup c hc, wastage_lookup c hc, hk, hsum, hlt⟩

theorem pool_tiling_exact_witness :
    25 < NUM_SIZECLASSES ∧ ∃ s w k, wsize_sizeclass[25]? = some s ∧ wastage_sizeclass[25]? = some w ∧
      1 ≤ k ∧ POOL_HEADER_WSIZE + w + k * s = POOL_WSIZE ∧ w < s :=
  ⟨by decide, pool_tiling_exact 25 (by decide)⟩

/-- C5 (wastage closed form): for every class index `c < NUM_SIZECLASSES`,
with `s = wsize_sizeclass[c]` and
`k = (POOL_WSIZE - POOL_HEADER_WSIZE) / s` (floor division), `k ≥ 1`, the
product `k * s` does not exceed the usable pool words, and the stored
`wastage_sizeclass[c]` equals `POOL_WSIZE - POOL_HEADER_WSIZE - k * s`, which
is the remainder of the usable pool words divided by `s`. -/
theorem wastage_closed_form (c : Nat) (hc : c < NUM_SIZECLASSES) :
    ∃ s w, wsize_sizeclass[c]? = some s ∧ wastage_sizeclass[c]? = some w ∧
      1 ≤ (POOL_WSIZE - POOL_HEADER_WSIZE) / s ∧
      (POOL_WSIZE - POOL_HEADER_WSIZE) / s * s ≤ POOL_WSIZE - POOL_HEADER_WSIZE ∧
      w = POOL_WSIZE - POOL_HEADER_WSIZE - (POOL_WSIZE - POOL_HEADER_WSIZE) / s * s ∧
      w = (POOL_WSIZE - POOL_HEADER_WSIZE) % s := by
  obtain ⟨hk, hsum, -, hmod⟩ := tiling_table c hc
  refine ⟨_, _, wsize_lookup c hc, wastage_lookup c hc, hk, ?_, ?_, hmod⟩
  · exact Nat.div_mul_le_self _ _
  · show _ = 4096 - 7 - 4089 / _ * _
    omega

theorem wastage_closed_form_witness :
    32 < NUM_SIZECLASSES ∧ ∃ s w, wsize_sizeclass[32]? = some s ∧ wastage_sizeclass[32]? = some w ∧
      1 ≤ (POOL_WSIZE - POOL_HEADER_WSIZE) / s ∧
      (POOL_WSIZE - POOL_HEADER_WSIZE) / s * s ≤ POOL_WSIZE - POOL_HEADER_WSIZE ∧
      w = POOL_WSIZE - POOL_HEADER_WSIZE - (POOL_WSIZE - POOL_HEADER_WSIZE) / s * s ∧
      w = (POOL_WSIZE - POOL_HEADER_WSIZE) % s :=
  ⟨by decide, wastage_closed_form 32 (by decide)⟩

/-- C6 (boundary of the lookup): the largest servable word size maps to the
last class: `sizeclass_wsize[SIZECLASS_MAX] = NUM_SIZECLASSES - 1`. -/
theorem lookup_boundary :
    sizeclass_wsize[SIZECLASS_MAX]? = some (NUM_SIZECLASSES - 1) := by
  rw [sizeclass_lookup SIZECLASS_MAX (Nat.le_refl _)]
  decide

/-- C7 (final class clamped to the ceiling): the last entry of
`wsize_sizeclass` is exactly `SIZECLASS_MAX`, and no entry of
`wsize_sizeclass` exceeds `SIZECLASS_MAX`. -/
theorem final_class_clamped :
    wsize_sizeclass[NUM_SIZECLASSES - 1]? = some SIZECLASS_MAX ∧
      ∀ s ∈ wsize_sizeclass, s ≤ SIZECLASS_MAX := by
  constructor
  · rw [wsize_lookup (NUM_SIZECLASSES - 1) (by decide)]
    decide
  · decide

/-- C8 (reference-configuration values): with `POOL_WSIZE = 4096`,
`POOL_HEADER_WSIZE = 7` and `SIZECLASS_MAX = 128`, the tables give
`sizeclass_wsize[1] = 0` with `wsize_sizeclass[0] = 1`;
`sizeclass_wsize[11] = 10` with `wsize_sizeclass[10] = 12`;
`sizeclass_wsize[128] = 32` with `wsize_sizeclass[32] = 128` and
`wastage_sizeclass[32] = 121`; and for class 0, `wastage_sizeclass[0] = 0` and
`7 + 0 + 4089 * 1 = 4096`. -/
theorem reference_configuration :
    POOL_WSIZE = 4096 ∧ POOL_HEADER_WSIZE = 7 ∧ SIZECLASS_MAX = 128 ∧
      sizeclass_wsize[1]? = some 0 ∧ wsize_sizeclass[0]? = some 1 ∧
      sizeclass_wsize[11]? = some 10 ∧ wsize_sizeclass[10]? = some 12 ∧
      sizeclass_wsize[128]? = some 32 ∧ wsize_sizeclass[32]? = some 128 ∧
      wastage_sizeclass[32]? = some 121 ∧
      wastage_sizeclass[0]? = some 0 ∧
      POOL_HEADER_WSIZE + 0 + 4089 * 1 = POOL_WSIZE := by
  refine ⟨rfl, rfl, rfl, ?_, ?_, ?_, ?_, ?_, ?_, ?_, ?_, rfl⟩
  · rw [sizeclass_lookup 1 (by decide)]; decide
  · rw [wsize_lookup 0 (by decide)]; decide
  · rw [sizeclass_lookup 11 (by decide)]; decide
  · rw [wsize_lookup 10 (by decide)]; decide
  · rw [sizeclass_lookup 128 (by decide)]; decide
  · rw [wsize_lookup 32 (by decide)]; decide
  · rw [wastage_lookup 32 (by decide)]; decide
  · rw [wastage_lookup 0 (by decide)]; decide

/-- C10 (sentinel at index 0): the unused entry `sizeclass_wsize[0]` holds 255,
which is not a valid class index (`255 ≥ NUM_SIZECLASSES`), and it is the only
entry of `sizeclass_wsize` that is not a valid class index. -/
theorem sentinel_at_zero :
    sizeclass_wsize[0]? = some 255 ∧ NUM_SIZECLASSES ≤ 255 ∧
      ∀ n c : Nat, sizeclass_wsize[n]? = some c → NUM_SIZECLASSES ≤ c → n = 0 := by
  refine ⟨?_, by decide, ?_⟩
  · rw [sizeclass_lookup 0 (by decide)]; decide
  · intro n c hc hbig
    obtain ⟨hlt, -⟩ := List.getElem?_eq_some.mp hc
    rw [sizeclass_wsize_length] at hlt
    by_contra hne
    have h1 : 1 ≤ n := Nat.one_le_iff_ne_zero.mpr hne
    obtain ⟨hvalid, -, -⟩ := coverage_table n hlt h1
    rw [sizeclass_lookup n (Nat.le_of_lt_succ hlt)] at hc
    have hcd : sizeclass_wsize.getD n 0 = c := Option.some.inj hc
    rw [hcd] at hvalid
    exact absurd hbig (Nat.not_le.mpr hvalid)

theorem sentinel_at_zero_witness :
    sizeclass_wsize[0]? = some 255 ∧ NUM_SIZECLASSES ≤ 255 ∧ (0 : Nat) = 0 :=
  ⟨sentinel_at_zero.1, sentinel_at_zero.2.1,
    sentinel_at_zero.2.2 0 255 sentinel_at_zero.1 (by decide)⟩

/-- C11 (class count fits the index type): the static assertion
`NUM_SIZECLASSES < 1 << (CHAR_BIT * sizeof(sizeclass_t))` holds for the 8-bit
`sizeclass_t`, that bound is 256, and every class index
`0 .. NUM_SIZECLASSES - 1` is stored in a `sizeclass_t` without truncation. -/
theorem class_count_fits_index_type :
    static_assert_condition = true ∧
      1 <<< (CHAR_BIT * sizeof_sizeclass_t) = 256 ∧
      NUM_SIZECLASSES < 256 ∧
      ∀ c : Nat, c < NUM_SIZECLASSES → to_sizeclass_t c = c := by
  refine ⟨by decide, by decide, by decide, ?_⟩
  intro c hc
  have h256 : 2 ^ (CHAR_BIT * sizeof_sizeclass_t) = 256 := by decide
  unfold to_sizeclass_t
  rw [h256]
  exact Nat.mod_eq_of_lt (Nat.lt_trans hc (by decide))

theorem class_count_fits_index_type_witness :
    static_assert_condition = true ∧ to_sizeclass_t 32 = 32 :=
  ⟨class_count_fits_index_type.1, class_count_fits_index_type.2.2.2 32 (by decide)⟩

set_option maxRecDepth 100000 in
/-- C12 (small sizes enumerated exactly): for every class index `i` with
`0 ≤ i ≤ 9`, `wsize_sizeclass[i] = i + 1`; hence for every word size `n` with
`1 ≤ n ≤ 10`, `sizeclass_wsize[n] = n - 1` and the size of that class equals
the requested size `n`. -/
theorem small_sizes_exact :
    (∀ i : Nat, i ≤ 9 → wsize_sizeclass[i]? = some (i + 1)) ∧
      ∀ n : Nat, 1 ≤ n → n ≤ 10 →
        sizeclass_wsize[n]? = some (n - 1) ∧ wsize_sizeclass[n - 1]? = some n := by
  constructor
  · intro i hi
    interval_cases i <;> rfl
  · intro n h1 h2
    interval_cases n <;> exact ⟨rfl, rfl⟩

theorem small_sizes_exact_witness :
    wsize_sizeclass[9]? = some (9 + 1) ∧
      sizeclass_wsize[10]? = some (10 - 1) ∧ wsize_sizeclass[10 - 1]? = some 10 :=
  ⟨small_sizes_exact.1 9 (by decide), small_sizes_exact.2 10 (by decide) (by decide)⟩

/-! ## Growth of the class sizes -/

theorem growthStep_ten (f : ℚ) (r : Rounding) :
    growthStepMatches f r 10 = roundsTo r (10 * f) 12 := rfl

theorem growthStep_thirteen (f : ℚ) (r : Rounding) :
    growthStepMatches f r 13 = roundsTo r (16 * f) 17 := rfl

set_option maxRecDepth 100000 in
theorem growth_table :
    ∀ i < 32, 10 ≤ i →
      wsize_sizeclass.getD (i - 1) 0 < wsize_sizeclass.getD i 0 ∧
      5 * wsize_sizeclass.getD i 0 ≤ 6 * wsize_sizeclass.getD (i - 1) 0 ∧
      33 * wsize_sizeclass.getD (i - 1) 0 ≤ 32 * wsize_sizeclass.getD i 0 := by
  decide

/-- C13, refuted as stated: no single rational growth factor `f > 1` with one
rounding rule (down, up, or to nearest) produces every class
`10 ≤ i ≤ NUM_SIZECLASSES - 2` from its predecessor.  The steps `10 → 12`
(class 10) and `16 → 17` (class 13) are incompatible under each rule. -/
theorem no_fixed_growth_factor :
    ¬ ∃ f : ℚ, 1 < f ∧ ∃ r : Rounding,
        ∀ i : Nat, 10 ≤ i → i ≤ NUM_SIZECLASSES - 2 → growthStepMatches f r i = true := by
  rintro ⟨f, -, r, h⟩
  have h10 := h 10 (by decide) (by decide)
  have h13 := h 13 (by decide) (by decide)
  rw [growthStep_ten] at h10
  rw [growthStep_thirteen] at h13
  cases r
  · simp only [roundsTo, decide_eq_true_eq, Int.floor_eq_iff] at h10 h13
    obtain ⟨a, -⟩ := h10
    obtain ⟨-, b⟩ := h13
    norm_num at a b
    linarith
  · simp only [roundsTo, decide_eq_true_eq, Int.ceil_eq_iff] at h10 h13
    obtain ⟨a, -⟩ := h10
    obtain ⟨-, b⟩ := h13
    norm_num at a b
    linarith
  · simp only [roundsTo, decide_eq_true_eq, abs_le] at h10 h13
    obtain ⟨a, -⟩ := h10
    obtain ⟨-, b⟩ := h13
    norm_num at a b
    linarith

/-- C13, amended: above the linear range the growth per step is bounded rather
than fixed.  For every class index `i` with `10 ≤ i ≤ NUM_SIZECLASSES - 2`,
`wsize_sizeclass[i - 1] < wsize_sizeclass[i]`, the ratio of the two is at most
`6 / 5` and at least `33 / 32`. -/
theorem bounded_growth (i : Nat) (h1 : 10 ≤ i) (h2 : i ≤ NUM_SIZECLASSES - 2) :
    ∃ a b, wsize_sizeclass[i - 1]? = some a ∧ wsize_sizeclass[i]? = some b ∧
      a < b ∧ 5 * b ≤ 6 * a ∧ 33 * a ≤ 32 * b := by
  have hi : i < 32 := Nat.lt_succ_of_le h2
  have hi33 : i < NUM_SIZECLASSES := Nat.lt_trans hi (by decide)
  obtain ⟨hlt, hup, hlo⟩ := growth_table i hi h1
  exact ⟨_, _, wsize_lookup (i - 1) (Nat.lt_of_le_of_lt (Nat.sub_le i 1) hi33),
    wsize_lookup i hi33, hlt, hup, hlo⟩

theorem bounded_growth_witness :
    10 ≤ 13 ∧ 13 ≤ NUM_SIZECLASSES - 2 ∧
      ∃ a b, wsize_sizeclass[13 - 1]? = some a ∧ wsize_sizeclass[13]? = some b ∧
        a < b ∧ 5 * b ≤ 6 * a ∧ 33 * a ≤ 32 * b :=
  ⟨by decide, by decide, bounded_growth 13 (by decide) (by decide)⟩

/-! ## Monotone lookup, round trip and waste bounds -/

set_option maxRecDepth 100000 in
theorem lookup_step_table :
    ∀ n < 128, 1 ≤ n → sizeclass_wsize.getD n 0 ≤ sizeclass_wsize.getD (n + 1) 0 := by
  decide

theorem lookup_mono_getD (n : Nat) (h1 : 1 ≤ n) :
    ∀ m : Nat, n ≤ m → m ≤ 128 →
      sizeclass_wsize.getD n 0 ≤ sizeclass_wsize.getD m 0 := by
  intro m hnm
  induction m, hnm using Nat.le_induction with
  | base => intro _; exact Nat.le_refl _
  | succ k hk ih =>
    intro hm
    exact Nat.le_trans (ih (Nat.le_of_succ_le hm))
      (lookup_step_table k (Nat.lt_of_succ_le hm) (Nat.le_trans h1 hk))

set_option maxRecDepth 100000 in
theorem round_trip_table :
    ∀ c < 33,
      1 ≤ wsize_sizeclass.getD c 0 ∧ wsize_sizeclass.getD c 0 ≤ 128 ∧
      sizeclass_wsize.getD (wsize_sizeclass.getD c 0) 0 = c := by
  decide

set_option maxRecDepth 100000 in
theorem waste_table :
    ∀ n < 129, 1 ≤ n →
      10 * (wsize_sizeclass.getD (sizeclass_wsize.getD n 0) 0 - n)
        < wsize_sizeclass.getD (sizeclass_wsize.getD n 0) 0 ∧
      wastage_sizeclass.getD (sizeclass_wsize.getD n 0) 0 ≤ 4089 ∧
      9 * 4089 ≤
        10 * ((4089 - wastage_sizeclass.getD (sizeclass_wsize.getD n 0) 0)
                / wsize_sizeclass.getD (sizeclass_wsize.getD n 0) 0) * n := by
  decide

/-- C14 (monotone classification): for all word sizes `n ≤ m` with `1 ≤ n` and
`m ≤ SIZECLASS_MAX`, both lookups succeed and
`sizeclass_wsize[n] ≤ sizeclass_wsize[m]`: a larger request never maps to a
smaller class. -/
theorem lookup_monotone (n m : Nat) (h1 : 1 ≤ n) (hnm : n ≤ m) (hm : m ≤ SIZECLASS_MAX) :
    ∃ a b, sizeclass_wsize[n]? = some a ∧ sizeclass_wsize[m]? = some b ∧ a ≤ b :=
  ⟨_, _, sizeclass_lookup n (Nat.le_trans hnm hm), sizeclass_lookup m hm,
    lookup_mono_getD n h1 m hnm hm⟩

theorem lookup_monotone_witness :
    1 ≤ 12 ∧ 12 ≤ 100 ∧ 100 ≤ SIZECLASS_MAX ∧
      ∃ a b, sizeclass_wsize[12]? = some a ∧ sizeclass_wsize[100]? = some b ∧ a ≤ b :=
  ⟨by decide, by decide, by decide, lookup_monotone 12 100 (by decide) (by decide) (by decide)⟩

/-- C15 (round trip between the two tables): for every class index
`c < NUM_SIZECLASSES`, classifying the class's own size returns the class:
`sizeclass_wsize[wsize_sizeclass[c]] = c`.  Consequently every class index is
the result of the lookup for at least one word size in `1 .. SIZECLASS_MAX`. -/
theorem round_trip (c : Nat) (hc : c < NUM_SIZECLASSES) :
    (∃ s, wsize_sizeclass[c]? = some s ∧ sizeclass_wsize[s]? = some c) ∧
      ∃ n, 1 ≤ n ∧ n ≤ SIZECLASS_MAX ∧ sizeclass_wsize[n]? = some c := by
  obtain ⟨h1, h2, hrt⟩ := round_trip_table c hc
  have hlook : sizeclass_wsize[wsize_sizeclass.getD c 0]? = some c := by
    rw [sizeclass_lookup _ h2, hrt]
  exact ⟨⟨_, wsize_lookup c hc, hlook⟩, ⟨_, h1, h2, hlook⟩⟩

theorem round_trip_witness :
    19 < NUM_SIZECLASSES ∧
      (∃ s, wsize_sizeclass[19]? = some s ∧ sizeclass_wsize[s]? = some 19) ∧
      ∃ n, 1 ≤ n ∧ n ≤ SIZECLASS_MAX ∧ sizeclass_wsize[n]? = some 19 :=
  ⟨by decide, round_trip 19 (by decide)⟩

/-- C16 (per-request rounding waste below 10%): for every word size `n` with
`1 ≤ n ≤ SIZECLASS_MAX`, with `s = wsize_sizeclass[sizeclass_wsize[n]]`,
`n ≤ s` and `10 * (s - n) < s`. -/
theorem rounding_waste_below_tenth (n : Nat) (h1 : 1 ≤ n) (h2 : n ≤ SIZECLASS_MAX) :
    ∃ c s, sizeclass_wsize[n]? = some c ∧ wsize_sizeclass[c]? = some s ∧
      n ≤ s ∧ 10 * (s - n) < s := by
  have hn : n < 129 := Nat.lt_succ_of_le h2
  obtain ⟨hc, -, hle⟩ := coverage_table n hn h1
  obtain ⟨hw, -, -⟩ := waste_table n hn h1
  exact ⟨_, _, sizeclass_lookup n h2, wsize_lookup _ hc, hle, hw⟩

theorem rounding_waste_below_tenth_witness :
    1 ≤ 29 ∧ 29 ≤ SIZECLASS_MAX ∧
      ∃ c s, sizeclass_wsize[29]? = some c ∧ wsize_sizeclass[c]? = some s ∧
        29 ≤ s ∧ 10 * (s - 29) < s :=
  ⟨by decide, by decide, rounding_waste_below_tenth 29 (by decide) (by decide)⟩

/-- C17 (pool utilisation at least 90%): for every word size `n` with
`1 ≤ n ≤ SIZECLASS_MAX`, with `c = sizeclass_wsize[n]`,
`s = wsize_sizeclass[c]`, `w = wastage_sizeclass[c]` and
`k = (POOL_WSIZE - POOL_HEADER_WSIZE - w) / s` the number of blocks in a pool
of class `c`, the padding fits in the usable pool words and
`10 * k * n ≥ 9 * (POOL_WSIZE - POOL_HEADER_WSIZE)`. -/
theorem pool_utilisation (n : Nat) (h1 : 1 ≤ n) (h2 : n ≤ SIZECLASS_MAX) :
    ∃ c s w, sizeclass_wsize[n]? = some c ∧ wsize_sizeclass[c]? = some s ∧
      wastage_sizeclass[c]? = some w ∧
      w ≤ POOL_WSIZE - POOL_HEADER_WSIZE ∧
      9 * (POOL_WSIZE - POOL_HEADER_WSIZE)
        ≤ 10 * ((POOL_WSIZE - POOL_HEADER_WSIZE - w) / s) * n := by
  have hn : n < 129 := Nat.lt_succ_of_le h2
  obtain ⟨hc, -, -⟩ := coverage_table n hn h1
  obtain ⟨-, hw, hu⟩ := waste_table n hn h1
  exact ⟨_, _, _, sizeclass_lookup n h2, wsize_lookup _ hc, wastage_lookup _ hc, hw, hu⟩

theorem pool_utilisation_witness :
    1 ≤ 29 ∧ 29 ≤ SIZECLASS_MAX ∧
      ∃ c s w, sizeclass_wsize[29]? = some c ∧ wsize_sizeclass[c]? = some s ∧
        wastage_sizeclass[c]? = some w ∧
        w ≤ POOL_WSIZE - POOL_HEADER_WSIZE ∧
        9 * (POOL_WSIZE - POOL_HEADER_WSIZE)
          ≤ 10 * ((POOL_WSIZE - POOL_HEADER_WSIZE - w) / s) * 29 :=
  ⟨by decide, by decide, pool_utilisation 29 (by decide) (by decide)⟩

end Sizeclasses
